import Mathlib

/-!
Shallow embedding of the ArangoDBStarter HTTP control plane
(`service/server.go`) and the startup validation of `main.go`.

The handlers in `server.go` are transcribed directly.  Helpers that the
handlers call but that live outside the given source (`PeerByID`,
`GetFreePortOffset`, `RemovePeerByID`, `needsAgent`, the per-role port
offset constants and the per-cluster offset stride) are modelled from the
specification; each such definition says so in its doc comment.

Machine integers are modelled as `Int` (Go `int`); `findHost` is applied
outside the model, so the handlers receive the already-derived host
strings for `r.Host` and `r.RemoteAddr` as plain arguments.  The file
system seen by the log handlers is a function from paths to a file
status.  Side effects that the claims talk about (the running trigger,
the setup save, whether a peer was appended) are returned as booleans.
-/

/-- A peer entry of the registry (struct `Peer`). -/
structure Peer where
  id : String
  address : String
  port : Int
  portOffset : Int
  dataDir : String
  hasAgent : Bool
deriving Repr, DecidableEq

/-- The peer registry (struct `peers`: slice of peers plus the agency size). -/
structure Peers where
  peers : List Peer
  agencySize : Int
deriving Repr, DecidableEq

/-- Body of a `/hello` POST (struct `HelloRequest`). -/
structure HelloRequest where
  slaveID : String
  slaveAddress : String
  slavePort : Int
  dataDir : String
deriving Repr, DecidableEq

/-- Body of a `/goodbye` POST (struct `GoodbyeRequest`). -/
structure GoodbyeRequest where
  slaveID : String
deriving Repr, DecidableEq

/-- Result of reading and JSON-decoding a request body: the read can fail,
the decode can fail, or a value is produced. -/
inductive BodyResult (α : Type) where
  | readError (msg : String)
  | parseError (msg : String)
  | ok (req : α)
deriving Repr, DecidableEq

/-- One entry of the `/process` response (struct `ServerProcess`). -/
structure ServerProcess where
  type : String
  ip : String
  port : Int
  processID : Int
  containerID : String
deriving Repr, DecidableEq

/-- The `/process` response (struct `ProcessListResponse`). -/
structure ProcessListResponse where
  serversStarted : Bool
  servers : List ServerProcess
deriving Repr, DecidableEq

/-- The observable data of a running server process handle (PID and
container id, as read by `processListHandler`). -/
structure ProcInfo where
  pid : Int
  containerID : String
deriving Repr, DecidableEq

/-- The `s.servers` field: the three optional role processes. -/
structure RunningServers where
  agentProc : Option ProcInfo
  coordinatorProc : Option ProcInfo
  dbserverProc : Option ProcInfo
deriving Repr, DecidableEq

/-- The service state visible to the handlers of `server.go`. -/
structure Service where
  isSlave : Bool
  id : String
  dataDir : String
  agencySize : Int
  allowSameDataDir : Bool
  masterPort : Int
  announcePort : Int
  isNetHost : Bool
  startCoordinator : Bool
  startDBserver : Bool
  myPeers : Peers
  servers : RunningServers
deriving Repr, DecidableEq

/-- Modelled from the spec: the per-role port offset constants
(`portOffsetAgent` in the source, outside this file); role offsets are
fixed per-role constants, agent = 1. -/
def portOffsetAgent : Int := 1

/-- Modelled from the spec: per-role constant for the coordinator = 2. -/
def portOffsetCoordinator : Int := 2

/-- Modelled from the spec: per-role constant for the dbserver = 3. -/
def portOffsetDBServer : Int := 3

/-- Modelled from the spec: the per-cluster stride between port offsets,
equal to the number of engine ports per peer (three roles). -/
def portOffsetIncrement : Int := 3

/-- Modelled from the spec: `peerByID(id)` is an O(n) scan of the registry
returning the first peer with the given id (method `PeerByID` of the
source's peer registry, outside this file). -/
def peerByID (id : String) (ps : List Peer) : Option Peer :=
  ps.find? (fun p => p.id == id)

/-- Fuel-driven probe used by `getFreePortOffset`: try successive multiples
of the stride until one is unused. -/
def getFreePortOffsetAux (ps : List Peer) : Nat → Int → Int
  | 0, o => o
  | Nat.succ n, o =>
      if ps.any (fun p => p.portOffset == o) then
        getFreePortOffsetAux ps n (o + portOffsetIncrement)
      else o

/-- Modelled from the spec: `freePortOffset()` returns the smallest
multiple of the per-cluster stride not currently in use (method
`GetFreePortOffset` of the source's peer registry, outside this file).
`ps.length + 1` probes always suffice to find a free multiple. -/
def getFreePortOffset (ps : List Peer) : Int :=
  getFreePortOffsetAux ps (ps.length + 1) 0

/-- Modelled from the spec: `removePeerByID(id)` drops the (first) entry
with the given id without renumbering the remaining offsets, and reports
whether an entry was found (method `RemovePeerByID` of the source's peer
registry, outside this file). -/
def removePeerByID (id : String) (ps : List Peer) : Option (List Peer) :=
  if ps.any (fun p => p.id == id) then
    some (ps.eraseP (fun p => p.id == id))
  else
    none

/-- `getHTTPServerPort` of `server.go`: computes the container-bound port
and the announced host port. -/
def getHTTPServerPort (s : Service) : Except String (Int × Int) :=
  let containerPort := s.masterPort
  let hostPort := s.announcePort
  let step : Except String Int :=
    if s.announcePort == s.masterPort && s.myPeers.peers.length > 0 then
      match peerByID s.id s.myPeers.peers with
      | some myPeer => Except.ok (containerPort + myPeer.portOffset)
      | none => Except.error ("No peer information found for ID " ++ s.id)
    else Except.ok containerPort
  match step with
  | Except.error e => Except.error e
  | Except.ok containerPort =>
      let hostPort := if s.isNetHost then containerPort else hostPort
      Except.ok (containerPort, hostPort)

/-- The self peer installed by `helloHandler` when the registry is empty:
id and dataDir of the service, address derived from the request host,
port from `getHTTPServerPort` (the error is discarded, as in the source),
portOffset 0 and `hasAgent = true`. -/
def selfInstallPeer (s : Service) (reqHost : String) : Peer :=
  let hostPort := match getHTTPServerPort s with
    | Except.ok pr => pr.2
    | Except.error _ => 0
  { id := s.id, address := reqHost, port := hostPort, portOffset := 0,
    dataDir := s.dataDir, hasAgent := true }

/-- Replace the registry of a service (each handler mutation is of this
shape: only `myPeers` changes). -/
def setPeers (s : Service) (ps : Peers) : Service :=
  { s with myPeers := ps }

/-- Lines 88-102 of `helloHandler`: if the registry is empty, install the
self peer as peer 0 and record the agency size. -/
def installSelfIfEmpty (s : Service) (reqHost : String) : Service :=
  if s.myPeers.peers.isEmpty then
    setPeers s { peers := [selfInstallPeer s reqHost], agencySize := s.agencySize }
  else s

/-- A `/hello` response: a 307 redirect, a JSON error with a status, or
the registry serialized with status 200. -/
inductive HelloResp where
  | redirect (location : String)
  | err (status : Nat) (message : String)
  | registry (ps : Peers)
deriving Repr, DecidableEq

/-- HTTP status of a `/hello` response. -/
def helloStatus : HelloResp → Nat
  | HelloResp.redirect _ => 307
  | HelloResp.err st _ => st
  | HelloResp.registry _ => 200

/-- Output of the hello handler: the response, the new service state,
whether `startRunningTrigger` was called, and whether a new peer was
appended. -/
structure HelloOut where
  resp : HelloResp
  service : Service
  triggered : Bool
  appended : Bool
deriving Repr, DecidableEq

/-- The slave address used by `helloHandler`: the request's `SlaveAddress`,
or — when that is empty — the host derived from the request's remote
address (`findHost(r.RemoteAddr)`). -/
def slaveAddrOf (req : HelloRequest) (remoteHost : String) : String :=
  if req.slaveAddress == "" then remoteHost else req.slaveAddress

/-- The same-dataDir guard of `helloHandler` (lines 130-137): rejects when
the guard is enabled and some existing peer has the same address and data
directory but a different id. -/
def guardHit (s : Service) (slaveAddr dataDir slaveID : String) : Bool :=
  !s.allowSameDataDir &&
    s.myPeers.peers.any
      (fun p => p.address == slaveAddr && p.dataDir == dataDir && p.id != slaveID)

/-- The peer appended by `helloHandler` for an unknown id (lines 152-159):
fresh port offset, `hasAgent` computed from size-before-append against the
agency size. -/
def newHelloPeer (s : Service) (remoteHost : String) (req : HelloRequest) : Peer :=
  { id := req.slaveID,
    address := slaveAddrOf req remoteHost,
    port := req.slavePort,
    portOffset := getFreePortOffset s.myPeers.peers,
    dataDir := req.dataDir,
    hasAgent := decide ((s.myPeers.peers.length : Int) < s.agencySize) }

/-- The POST part of `helloHandler` (lines 104-166), acting on the state
after the possible self install. -/
def helloPost (s : Service) (remoteHost : String) (body : BodyResult HelloRequest) : HelloOut :=
  match body with
  | BodyResult.readError msg =>
      ⟨HelloResp.err 400 ("Cannot read request body: " ++ msg), s, false, false⟩
  | BodyResult.parseError msg =>
      ⟨HelloResp.err 400 ("Cannot parse request body: " ++ msg), s, false, false⟩
  | BodyResult.ok req =>
      let slaveAddr := slaveAddrOf req remoteHost
      if req.slaveID == "" then
        ⟨HelloResp.err 400 "SlaveID must be set.", s, false, false⟩
      else if guardHit s slaveAddr req.dataDir req.slaveID then
        ⟨HelloResp.err 400 "Cannot use same directory as peer.", s, false, false⟩
      else
        match peerByID req.slaveID s.myPeers.peers with
        | some _ =>
            let newPeers := s.myPeers.peers.map (fun p =>
              if p.id == req.slaveID then
                { p with port := req.slavePort, address := req.slaveAddress,
                         dataDir := req.dataDir }
              else p)
            let s2 := setPeers s { s.myPeers with peers := newPeers }
            ⟨HelloResp.registry s2.myPeers, s2, false, false⟩
        | none =>
            let newPeer := newHelloPeer s remoteHost req
            let s2 := setPeers s { s.myPeers with peers := s.myPeers.peers ++ [newPeer] }
            let triggered := (s2.myPeers.peers.length : Int) == s.agencySize
            ⟨HelloResp.registry s2.myPeers, s2, triggered, true⟩

/-- `helloHandler` of `server.go`.  `reqHost` and `remoteHost` are the
already-derived values of `findHost(r.Host)` and `findHost(r.RemoteAddr)`. -/
def helloHandler (s : Service) (reqHost remoteHost method : String)
    (body : BodyResult HelloRequest) : HelloOut :=
  if s.isSlave then
    match s.myPeers.peers with
    | master :: _ =>
        ⟨HelloResp.redirect
          ("http://" ++ master.address ++ ":" ++ toString master.port ++ "/hello"),
         s, false, false⟩
    | [] => ⟨HelloResp.err 400 "No master known.", s, false, false⟩
  else
    let s2 := installSelfIfEmpty s reqHost
    if method == "POST" then
      helloPost s2 remoteHost body
    else
      ⟨HelloResp.registry s2.myPeers, s2, false, false⟩

/-- A `/goodbye` response: a JSON error with a status, or 200 "BYE". -/
inductive GoodbyeResp where
  | err (status : Nat) (message : String)
  | bye
deriving Repr, DecidableEq

/-- HTTP status and body of a `/goodbye` response. -/
def goodbyeHTTP : GoodbyeResp → Nat × String
  | GoodbyeResp.err st msg => (st, msg)
  | GoodbyeResp.bye => (200, "BYE")

/-- Output of the goodbye handler: the response, the new service state,
and whether `saveSetup` was called. -/
structure GoodbyeOut where
  resp : GoodbyeResp
  service : Service
  setupSaved : Bool
deriving Repr, DecidableEq

/-- `goodbyeHandler` of `server.go`. -/
def goodbyeHandler (s : Service) (method : String)
    (body : BodyResult GoodbyeRequest) : GoodbyeOut :=
  if method != "POST" then
    ⟨GoodbyeResp.err 405 "POST required", s, false⟩
  else
    match body with
    | BodyResult.readError msg =>
        ⟨GoodbyeResp.err 400 ("Cannot read request body: " ++ msg), s, false⟩
    | BodyResult.parseError msg =>
        ⟨GoodbyeResp.err 400 ("Cannot parse request body: " ++ msg), s, false⟩
    | BodyResult.ok req =>
        if req.slaveID == "" then
          ⟨GoodbyeResp.err 400 "SlaveID must be set.", s, false⟩
        else
          match removePeerByID req.slaveID s.myPeers.peers with
          | none => ⟨GoodbyeResp.err 404 "Unknown ID", s, false⟩
          | some newPeers =>
              ⟨GoodbyeResp.bye,
               setPeers s { s.myPeers with peers := newPeers }, true⟩

/-- `processListHandler` of `server.go`: lists the local role processes
and reports `serversStarted` when their count equals the expected count
(2, or 3 when this peer has an agent). -/
def processListHandler (s : Service) : ProcessListResponse :=
  match peerByID s.id s.myPeers.peers with
  | none => { serversStarted := (([] : List ServerProcess).length == 2), servers := [] }
  | some myPeer =>
      let expectedServers : Nat := if myPeer.hasAgent then 3 else 2
      let portOffset := myPeer.portOffset
      let ip := myPeer.address
      let agentList := match s.servers.agentProc with
        | some p => [ServerProcess.mk "agent" ip (s.masterPort + portOffset + portOffsetAgent) p.pid p.containerID]
        | none => []
      let coordinatorList := match s.servers.coordinatorProc with
        | some p => [ServerProcess.mk "coordinator" ip (s.masterPort + portOffset + portOffsetCoordinator) p.pid p.containerID]
        | none => []
      let dbserverList := match s.servers.dbserverProc with
        | some p => [ServerProcess.mk "dbserver" ip (s.masterPort + portOffset + portOffsetDBServer) p.pid p.containerID]
        | none => []
      let servers := agentList ++ coordinatorList ++ dbserverList
      { serversStarted := (servers.length == expectedServers), servers := servers }

/-- The per-role constant embedded in a reported server's port, keyed by
the `type` field of the `/process` entry. -/
def roleOffset (t : String) : Int :=
  if t == "agent" then portOffsetAgent
  else if t == "coordinator" then portOffsetCoordinator
  else portOffsetDBServer

/-- Status of a path in the file system as seen by `os.Open`: absent,
readable with some contents, or failing with some other error. -/
inductive FileStat where
  | absent
  | content (c : String)
  | openFailure (msg : String)
deriving Repr, DecidableEq

/-- The log path used by `logsHandler`:
`filepath.Join(dataDir, mode+port, "arangod.log")`. -/
def logPath (s : Service) (myPeer : Peer) (mode : String) (serverPortOffset : Int) : String :=
  let myPort := s.masterPort + myPeer.portOffset + serverPortOffset
  s.dataDir ++ "/" ++ mode ++ toString myPort ++ "/arangod.log"

/-- `logsHandler` of `server.go`, returning the HTTP status and body.
`fs` maps paths to their file status. -/
def logsHandler (s : Service) (fs : String → FileStat) (mode : String)
    (serverPortOffset : Int) : Nat × String :=
  match peerByID s.id s.myPeers.peers with
  | none => (412, "")
  | some myPeer =>
      match fs (logPath s myPeer mode serverPortOffset) with
      | FileStat.absent => (200, "")
      | FileStat.openFailure msg => (500, msg)
      | FileStat.content c => (200, c)

/-- Modelled from the spec: `needsAgent` (outside this file) is whether
this peer runs an agent process, i.e. the registered peer's `hasAgent`
flag. -/
def needsAgent (s : Service) : Bool :=
  match peerByID s.id s.myPeers.peers with
  | some p => p.hasAgent
  | none => false

/-- `agentLogsHandler` of `server.go`: 404 when this peer runs no agent,
otherwise the agent log. -/
def agentLogsHandler (s : Service) (fs : String → FileStat) : Nat × String :=
  if needsAgent s then
    logsHandler s fs "agent" portOffsetAgent
  else
    (404, "")

/-- `dbserverLogsHandler` of `server.go`. -/
def dbserverLogsHandler (s : Service) (fs : String → FileStat) : Nat × String :=
  logsHandler s fs "dbserver" portOffsetDBServer

/-- `coordinatorLogsHandler` of `server.go`. -/
def coordinatorLogsHandler (s : Service) (fs : String → FileStat) : Nat × String :=
  logsHandler s fs "coordinator" portOffsetCoordinator

/-- The configuration inspected by the plausibility checks of
`cmdMainRun` in `main.go`. -/
structure Config where
  agencySize : Int
  ownAddress : String
  dockerImage : String
  rrPath : String
deriving Repr, DecidableEq

/-- The plausibility checks at the start of `cmdMainRun` (`main.go`):
returns the fatal error message when one of the checks fires, `none` when
the configuration passes.  Go's `%` on `int` is truncated division
remainder, i.e. `Int.tmod`. -/
def validateStartup (c : Config) : Option String :=
  if c.agencySize.tmod 2 == 0 || c.agencySize ≤ 0 then
    some "Error: agencySize needs to be a positive, odd number."
  else if c.agencySize == 1 && c.ownAddress == "" then
    some "Error: if agencySize==1, ownAddress must be given."
  else if c.dockerImage != "" && c.rrPath != "" then
    some "Error: using --dockerImage and --rr is not possible."
  else
    none

/-- The `hasAgent` flags of a registry, in join order. -/
def agentFlags (l : List Peer) : List Bool := l.map Peer.hasAgent

/-- The flag pattern required by the spec invariant: the first
`min n a` peers carry an agent, the rest do not. -/
def agentPattern (n a : Nat) : List Bool :=
  List.replicate (min n a) true ++ List.replicate (n - min n a) false

/-- The spec's agent invariant for a registry with agency size `A`:
exactly `min (length, agencySize)` peers have `hasAgent = true` and they
occupy the first positions in join order. -/
def AgentInv (l : List Peer) (A : Int) : Prop :=
  agentFlags l = agentPattern l.length A.toNat

instance (l : List Peer) (A : Int) : Decidable (AgentInv l A) := by
  unfold AgentInv; infer_instance

/-- Registry states reachable from `s0` by any sequence of hello and
goodbye operations. -/
inductive Reach (s0 : Service) : Service → Prop where
  | refl : Reach s0 s0
  | hello (s : Service) (reqHost remoteHost method : String)
      (body : BodyResult HelloRequest) :
      Reach s0 s → Reach s0 (helloHandler s reqHost remoteHost method body).service
  | goodbye (s : Service) (method : String) (body : BodyResult GoodbyeRequest) :
      Reach s0 s → Reach s0 (goodbyeHandler s method body).service

/-- Registry states reachable from `s0` by hello operations and by
goodbye operations that only ever remove peers without an agent. -/
inductive ReachSafe (s0 : Service) : Service → Prop where
  | refl : ReachSafe s0 s0
  | hello (s : Service) (reqHost remoteHost method : String)
      (body : BodyResult HelloRequest) :
      ReachSafe s0 s → ReachSafe s0 (helloHandler s reqHost remoteHost method body).service
  | goodbye (s : Service) (method : String) (body : BodyResult GoodbyeRequest) :
      ReachSafe s0 s →
      (∀ req, body = BodyResult.ok req →
        ∀ p ∈ s.myPeers.peers, p.id = req.slaveID → p.hasAgent = false) →
      ReachSafe s0 (goodbyeHandler s method body).service

/-- A freshly started leader with `agencySize = 1` and an empty registry. -/
def baseService : Service :=
  { isSlave := false, id := "self", dataDir := "d0", agencySize := 1,
    allowSameDataDir := false, masterPort := 4000, announcePort := 4000,
    isNetHost := false, startCoordinator := true, startDBserver := true,
    myPeers := { peers := [], agencySize := 0 },
    servers := { agentProc := none, coordinatorProc := none, dbserverProc := none } }

/-- The hello request of peer `B` used in concrete runs. -/
def reqB : HelloRequest :=
  { slaveID := "B", slaveAddress := "aB", slavePort := 4001, dataDir := "dB" }

/-- The leader state after `B` joined `baseService`. -/
def serviceAfterB : Service :=
  (helloHandler baseService "h0" "hB" "POST" (BodyResult.ok reqB)).service

/-- The state after the leader's own peer (an agent-bearing peer) said
goodbye to `serviceAfterB`. -/
def serviceAfterGoodbyeSelf : Service :=
  (goodbyeHandler serviceAfterB "POST" (BodyResult.ok { slaveID := "self" })).service

/-- Concrete peers for witnesses: the installed leader peer and a later,
agent-less peer. -/
def peerSelf0 : Peer :=
  { id := "self", address := "h0", port := 4000, portOffset := 0,
    dataDir := "d0", hasAgent := true }

def peerB3 : Peer :=
  { id := "B", address := "aB", port := 4001, portOffset := 3,
    dataDir := "dB", hasAgent := false }

/-- The leader with both concrete peers registered. -/
def twoPeerService : Service :=
  { baseService with myPeers := { peers := [peerSelf0, peerB3], agencySize := 1 } }

/-- A leader with one registered, agent-less self peer (used by the log
handler witnesses). -/
def selfNoAgentPeer : Peer :=
  { id := "self", address := "h0", port := 4000, portOffset := 3,
    dataDir := "d0", hasAgent := false }

def noAgentService : Service :=
  { baseService with myPeers := { peers := [selfNoAgentPeer], agencySize := 1 } }

/-- A leader with the self peer registered and all three role processes
running (used by the process-list witness). -/
def procService : Service :=
  { baseService with
      myPeers := { peers := [peerSelf0], agencySize := 1 },
      servers := { agentProc := some { pid := 10, containerID := "ca" },
                   coordinatorProc := some { pid := 11, containerID := "cc" },
                   dbserverProc := some { pid := 12, containerID := "cd" } } }

/-- A re-hello of peer `B` with an empty `SlaveAddress` (used by the
update-path witnesses). -/
def reqB2 : HelloRequest :=
  { slaveID := "B", slaveAddress := "", slavePort := 4002, dataDir := "dB2" }

/-- A join request whose derived address and data directory collide with
the self peer (used by the guard witnesses). -/
def reqGuard : HelloRequest :=
  { slaveID := "C", slaveAddress := "", slavePort := 0, dataDir := "d0" }

/-- A follower (slave) starter that knows the leader peer (used by the
redirect witness). -/
def slaveService : Service :=
  { baseService with
      isSlave := true,
      myPeers := { peers := [peerSelf0], agencySize := 1 } }

/-! Helper lemmas about the handlers. -/

theorem setPeers_agencySize (s : Service) (ps : Peers) :
    (setPeers s ps).agencySize = s.agencySize := rfl

theorem setPeers_isSlave (s : Service) (ps : Peers) :
    (setPeers s ps).isSlave = s.isSlave := rfl

theorem installSelfIfEmpty_agencySize (s : Service) (rh : String) :
    (installSelfIfEmpty s rh).agencySize = s.agencySize := by
  unfold installSelfIfEmpty
  split <;> rfl

theorem installSelfIfEmpty_isSlave (s : Service) (rh : String) :
    (installSelfIfEmpty s rh).isSlave = s.isSlave := by
  unfold installSelfIfEmpty
  split <;> rfl

theorem installSelfIfEmpty_of_ne_nil (s : Service) (rh : String)
    (h : s.myPeers.peers ≠ []) : installSelfIfEmpty s rh = s := by
  unfold installSelfIfEmpty
  rw [if_neg]
  simp [List.isEmpty_iff, h]

theorem helloPost_agencySize (s : Service) (rd : String) (b : BodyResult HelloRequest) :
    (helloPost s rd b).service.agencySize = s.agencySize := by
  unfold helloPost
  rcases b with msg | msg | req
  · rfl
  · rfl
  · dsimp only
    split
    · rfl
    · split
      · rfl
      · split <;> rfl

theorem helloHandler_agencySize (s : Service) (rh rd m : String) (b : BodyResult HelloRequest) :
    (helloHandler s rh rd m b).service.agencySize = s.agencySize := by
  unfold helloHandler
  split
  · split <;> rfl
  · dsimp only
    split
    · rw [helloPost_agencySize, installSelfIfEmpty_agencySize]
    · rw [installSelfIfEmpty_agencySize]

theorem goodbyeHandler_agencySize (s : Service) (m : String) (b : BodyResult GoodbyeRequest) :
    (goodbyeHandler s m b).service.agencySize = s.agencySize := by
  unfold goodbyeHandler
  split
  · rfl
  · rcases b with msg | msg | req
    · rfl
    · rfl
    · dsimp only
      split
      · rfl
      · split <;> rfl

/-! C8: startup validation. -/

theorem int_tmod_two_eq_zero_iff_even (a : Int) : a.tmod 2 = 0 ↔ Even a := by
  constructor
  · intro h
    exact even_iff_two_dvd.mpr (Int.dvd_of_tmod_eq_zero h)
  · intro h
    exact Int.tmod_eq_zero_of_dvd (even_iff_two_dvd.mp h)

/-- C8: startup validation fails (the process aborts fatally before any
task starts) exactly when the agency size is even or non-positive, or the
agency size is 1 without a configured own address, or a container image
is configured together with the rr debugger path; any other configuration
passes the plausibility checks of `cmdMainRun`. -/
theorem startup_validation_spec (c : Config) :
    (validateStartup c).isSome = true ↔
      (Even c.agencySize ∨ c.agencySize ≤ 0) ∨
      (c.agencySize = 1 ∧ c.ownAddress = "") ∨
      (c.dockerImage ≠ "" ∧ c.rrPath ≠ "") := by
  have e1 : (c.agencySize.tmod 2 == 0 || decide (c.agencySize ≤ 0)) = true
      ↔ (Even c.agencySize ∨ c.agencySize ≤ 0) := by
    simp [Bool.or_eq_true, beq_iff_eq, decide_eq_true_eq,
      int_tmod_two_eq_zero_iff_even]
  have e2 : (c.agencySize == 1 && c.ownAddress == "") = true
      ↔ (c.agencySize = 1 ∧ c.ownAddress = "") := by
    simp [Bool.and_eq_true, beq_iff_eq]
  have e3 : (c.dockerImage != "" && c.rrPath != "") = true
      ↔ (c.dockerImage ≠ "" ∧ c.rrPath ≠ "") := by
    simp [Bool.and_eq_true, bne_iff_ne]
  unfold validateStartup
  split_ifs with h1 h2 h3
  · simp only [Option.isSome_some, true_iff]
    exact Or.inl (e1.mp h1)
  · simp only [Option.isSome_some, true_iff]
    exact Or.inr (Or.inl (e2.mp h2))
  · simp only [Option.isSome_some, true_iff]
    exact Or.inr (Or.inr (e3.mp h3))
  · simp only [Option.isSome_none, Bool.false_eq_true, false_iff]
    rintro (h | h | h)
    · exact absurd (e1.mpr h) h1
    · exact absurd (e2.mpr h) h2
    · exact absurd (e3.mpr h) h3

/-! C2: the running trigger. -/

theorem helloPost_trigger_eq (s : Service) (rd : String) (b : BodyResult HelloRequest) :
    (helloPost s rd b).triggered
      = ((helloPost s rd b).appended
          && (((helloPost s rd b).service.myPeers.peers.length : Int) == s.agencySize)) := by
  unfold helloPost
  rcases b with msg | msg | req
  · rfl
  · rfl
  · dsimp only
    split
    · rfl
    · split
      · rfl
      · split <;> rfl

/-- C2 counterexample: with `agencySize = 1`, a plain GET `/hello` on the
fresh leader installs the self peer, so the registry size reaches the
agency size, yet the running trigger is not signaled. -/
theorem hello_trigger_counterexample :
    baseService.myPeers.peers.length = 0 ∧
    ((helloHandler baseService "h0" "r0" "GET" (BodyResult.readError "")).service.myPeers.peers.length : Int)
        = baseService.agencySize ∧
    (helloHandler baseService "h0" "r0" "GET" (BodyResult.readError "")).triggered = false := by
  decide

/-- C2 (amended): the running trigger is signaled by a hello operation
exactly when the operation appends a new peer and the registry size after
the append equals the agency size; in particular the self install alone
(e.g. agency size 1 with an empty registry) never signals the trigger. -/
theorem hello_trigger_iff_append_reaches_agencySize (s : Service)
    (rh rd m : String) (b : BodyResult HelloRequest) :
    (helloHandler s rh rd m b).triggered
      = ((helloHandler s rh rd m b).appended
          && (((helloHandler s rh rd m b).service.myPeers.peers.length : Int) == s.agencySize)) := by
  unfold helloHandler
  split
  · split <;> rfl
  · dsimp only
    split
    · rw [helloPost_trigger_eq, installSelfIfEmpty_agencySize]
    · rfl

/-! C5: goodbye semantics. -/

/-- C5: a POST `/goodbye` with a non-empty SlaveID removes the peer,
persists the setup and answers 200 "BYE" when the id is known; when the
id is unknown it answers 404, leaves the registry unchanged and does not
rewrite the setup file. -/
theorem goodbye_spec (s : Service) (req : GoodbyeRequest) (h : req.slaveID ≠ "") :
    (s.myPeers.peers.any (fun p => p.id == req.slaveID) = true →
      (goodbyeHandler s "POST" (BodyResult.ok req)).resp = GoodbyeResp.bye ∧
      goodbyeHTTP (goodbyeHandler s "POST" (BodyResult.ok req)).resp = (200, "BYE") ∧
      (goodbyeHandler s "POST" (BodyResult.ok req)).setupSaved = true ∧
      (goodbyeHandler s "POST" (BodyResult.ok req)).service.myPeers.peers
        = s.myPeers.peers.eraseP (fun p => p.id == req.slaveID)) ∧
    (s.myPeers.peers.any (fun p => p.id == req.slaveID) = false →
      (goodbyeHandler s "POST" (BodyResult.ok req)).resp = GoodbyeResp.err 404 "Unknown ID" ∧
      (goodbyeHTTP (goodbyeHandler s "POST" (BodyResult.ok req)).resp).1 = 404 ∧
      (goodbyeHandler s "POST" (BodyResult.ok req)).setupSaved = false ∧
      (goodbyeHandler s "POST" (BodyResult.ok req)).service = s) := by
  have hb : (req.slaveID == "") = false := beq_eq_false_iff_ne.mpr h
  constructor
  · intro hany
    simp [goodbyeHandler, removePeerByID, hb, hany, goodbyeHTTP, setPeers]
  · intro hany
    simp [goodbyeHandler, removePeerByID, hb, hany, goodbyeHTTP]

theorem goodbye_spec_witness :
    ((GoodbyeRequest.mk "B").slaveID ≠ "") ∧
    (twoPeerService.myPeers.peers.any (fun p => p.id == (GoodbyeRequest.mk "B").slaveID) = true →
      (goodbyeHandler twoPeerService "POST" (BodyResult.ok (GoodbyeRequest.mk "B"))).resp = GoodbyeResp.bye ∧
      goodbyeHTTP (goodbyeHandler twoPeerService "POST" (BodyResult.ok (GoodbyeRequest.mk "B"))).resp = (200, "BYE") ∧
      (goodbyeHandler twoPeerService "POST" (BodyResult.ok (GoodbyeRequest.mk "B"))).setupSaved = true ∧
      (goodbyeHandler twoPeerService "POST" (BodyResult.ok (GoodbyeRequest.mk "B"))).service.myPeers.peers
        = twoPeerService.myPeers.peers.eraseP (fun p => p.id == (GoodbyeRequest.mk "B").slaveID)) ∧
    (twoPeerService.myPeers.peers.any (fun p => p.id == (GoodbyeRequest.mk "B").slaveID) = false →
      (goodbyeHandler twoPeerService "POST" (BodyResult.ok (GoodbyeRequest.mk "B"))).resp = GoodbyeResp.err 404 "Unknown ID" ∧
      (goodbyeHTTP (goodbyeHandler twoPeerService "POST" (BodyResult.ok (GoodbyeRequest.mk "B"))).resp).1 = 404 ∧
      (goodbyeHandler twoPeerService "POST" (BodyResult.ok (GoodbyeRequest.mk "B"))).setupSaved = false ∧
      (goodbyeHandler twoPeerService "POST" (BodyResult.ok (GoodbyeRequest.mk "B"))).service = twoPeerService) :=
  ⟨by decide, goodbye_spec twoPeerService (GoodbyeRequest.mk "B") (by decide)⟩

/-! C6: hello on a non-leader. -/

/-- C6: a hello received by a starter that is not the leader leaves its
registry unchanged; when it knows at least one peer it answers 307 with a
Location of the form `http://<peers0.Address>:<peers0.Port>/hello`, and
when it knows no peers it answers 400. -/
theorem hello_follower_spec (s : Service) (rh rd m : String)
    (b : BodyResult HelloRequest) (hs : s.isSlave = true) :
    (helloHandler s rh rd m b).service = s ∧
    (∀ master rest, s.myPeers.peers = master :: rest →
      (helloHandler s rh rd m b).resp
        = HelloResp.redirect
            ("http://" ++ master.address ++ ":" ++ toString master.port ++ "/hello") ∧
      helloStatus (helloHandler s rh rd m b).resp = 307) ∧
    (s.myPeers.peers = [] →
      (helloHandler s rh rd m b).resp = HelloResp.err 400 "No master known." ∧
      helloStatus (helloHandler s rh rd m b).resp = 400) := by
  unfold helloHandler
  rw [if_pos (by simp [hs])]
  refine ⟨?_, ?_, ?_⟩
  · cases hp : s.myPeers.peers <;> simp [hp]
  · intro master rest hp
    simp [hp, helloStatus]
  · intro hp
    simp [hp, helloStatus]

/-! C7: log handlers. -/

/-- C7: `/logs/agent` answers 404 on a peer that runs no agent (and
delegates to the log streamer on an agent-bearing peer); for a registered
peer, `/logs/{role}` answers 200 with an empty body when the role's log
file under `{dataDir}/{role}{port}/` does not exist, and 200 with the
file's contents when it does. -/
theorem logs_spec (s : Service) (fs : String → FileStat) (p : Peer)
    (hp : peerByID s.id s.myPeers.peers = some p) :
    (needsAgent s = false → agentLogsHandler s fs = (404, "")) ∧
    (needsAgent s = true →
      agentLogsHandler s fs = logsHandler s fs "agent" portOffsetAgent) ∧
    (∀ mode off, fs (logPath s p mode off) = FileStat.absent →
      logsHandler s fs mode off = (200, "")) ∧
    (∀ mode off c, fs (logPath s p mode off) = FileStat.content c →
      logsHandler s fs mode off = (200, c)) := by
  refine ⟨?_, ?_, ?_, ?_⟩
  · intro hna
    simp [agentLogsHandler, hna]
  · intro hna
    simp [agentLogsHandler, hna]
  · intro mode off hf
    simp [logsHandler, hp, hf]
  · intro mode off c hf
    simp [logsHandler, hp, hf]

theorem logs_spec_witness :
    (peerByID noAgentService.id noAgentService.myPeers.peers = some selfNoAgentPeer) ∧
    ((needsAgent noAgentService = false →
        agentLogsHandler noAgentService (fun _ => FileStat.absent) = (404, "")) ∧
     (needsAgent noAgentService = true →
        agentLogsHandler noAgentService (fun _ => FileStat.absent)
          = logsHandler noAgentService (fun _ => FileStat.absent) "agent" portOffsetAgent) ∧
     (∀ mode off, (fun _ => FileStat.absent) (logPath noAgentService selfNoAgentPeer mode off) = FileStat.absent →
        logsHandler noAgentService (fun _ => FileStat.absent) mode off = (200, "")) ∧
     (∀ mode off c, (fun _ => FileStat.absent) (logPath noAgentService selfNoAgentPeer mode off) = FileStat.content c →
        logsHandler noAgentService (fun _ => FileStat.absent) mode off = (200, c))) :=
  ⟨by decide, logs_spec noAgentService (fun _ => FileStat.absent) selfNoAgentPeer (by decide)⟩

/-! C4: the process list. -/

theorem roleOffset_agent : roleOffset "agent" = portOffsetAgent := by decide

theorem roleOffset_coordinator : roleOffset "coordinator" = portOffsetCoordinator := by
  decide

theorem roleOffset_dbserver : roleOffset "dbserver" = portOffsetDBServer := by decide

/-- C4: for a registered peer, `/process` reports `serversStarted = true`
exactly when the number of listed local processes equals 2 plus one more
when the peer has an agent — independently of the coordinator/dbserver
configuration flags, which the handler never consults; every listed
server's port is `masterPort + portOffset +` a per-role constant, and the
three per-role constants are mutually distinct. -/
theorem processList_spec (s : Service) (p : Peer)
    (hp : peerByID s.id s.myPeers.peers = some p) :
    ((processListHandler s).serversStarted = true ↔
      (processListHandler s).servers.length = 2 + (if p.hasAgent then 1 else 0)) ∧
    (∀ srv ∈ (processListHandler s).servers,
      srv.port = s.masterPort + p.portOffset + roleOffset srv.type) ∧
    portOffsetAgent ≠ portOffsetCoordinator ∧
    portOffsetAgent ≠ portOffsetDBServer ∧
    portOffsetCoordinator ≠ portOffsetDBServer := by
  refine ⟨?_, ?_, by decide, by decide, by decide⟩
  · unfold processListHandler
    rw [hp]
    dsimp only
    rcases ha : s.servers.agentProc with _ | pa <;>
      rcases hc : s.servers.coordinatorProc with _ | pc <;>
        rcases hd : s.servers.dbserverProc with _ | pd <;>
          cases hag : p.hasAgent <;>
            simp [beq_iff_eq]
  · unfold processListHandler
    rw [hp]
    dsimp only
    rcases ha : s.servers.agentProc with _ | pa <;>
      rcases hc : s.servers.coordinatorProc with _ | pc <;>
        rcases hd : s.servers.dbserverProc with _ | pd <;>
          · intro srv hsrv
            simp only [List.mem_append, List.mem_singleton, List.not_mem_nil,
              or_false, false_or] at hsrv
            all_goals first
              | (rcases hsrv with (h | h) | h <;>
                  (subst h;
                   simp [roleOffset_agent, roleOffset_coordinator, roleOffset_dbserver]))
              | (rcases hsrv with h | h <;>
                  (subst h;
                   simp [roleOffset_agent, roleOffset_coordinator, roleOffset_dbserver]))
              | (subst hsrv;
                 simp [roleOffset_agent, roleOffset_coordinator, roleOffset_dbserver])

theorem processList_spec_witness :
    (peerByID procService.id procService.myPeers.peers = some peerSelf0) ∧
    (((processListHandler procService).serversStarted = true ↔
        (processListHandler procService).servers.length
          = 2 + (if peerSelf0.hasAgent then 1 else 0)) ∧
     (∀ srv ∈ (processListHandler procService).servers,
        srv.port = procService.masterPort + peerSelf0.portOffset + roleOffset srv.type) ∧
     portOffsetAgent ≠ portOffsetCoordinator ∧
     portOffsetAgent ≠ portOffsetDBServer ∧
     portOffsetCoordinator ≠ portOffsetDBServer) :=
  ⟨by decide, processList_spec procService peerSelf0 (by decide)⟩

/-! C9: the self install happens before request validation. -/

/-- C9: on a fresh leader (empty registry) the hello handler installs the
self peer (portOffset 0, hasAgent true) before validating the request, so
a GET, a POST with an unreadable body, a POST with a malformed body, a
POST with an empty SlaveID and a POST rejected by the same-dataDir guard
all leave the self peer installed although no join takes place. -/
theorem hello_self_install_on_error (s : Service) (rh rd : String)
    (hs : s.isSlave = false) (he : s.myPeers.peers = []) :
    (selfInstallPeer s rh).portOffset = 0 ∧
    (selfInstallPeer s rh).hasAgent = true ∧
    (∀ b : BodyResult HelloRequest,
      (helloHandler s rh rd "GET" b).service.myPeers.peers = [selfInstallPeer s rh]) ∧
    (∀ msg, (helloHandler s rh rd "POST" (BodyResult.readError msg)).service.myPeers.peers
      = [selfInstallPeer s rh]) ∧
    (∀ msg, (helloHandler s rh rd "POST" (BodyResult.parseError msg)).service.myPeers.peers
      = [selfInstallPeer s rh]) ∧
    (∀ req : HelloRequest, req.slaveID = "" →
      (helloHandler s rh rd "POST" (BodyResult.ok req)).service.myPeers.peers
        = [selfInstallPeer s rh]) ∧
    (∀ req : HelloRequest, req.slaveID ≠ "" →
      guardHit (installSelfIfEmpty s rh) (slaveAddrOf req rd) req.dataDir req.slaveID = true →
      (helloHandler s rh rd "POST" (BodyResult.ok req)).service.myPeers.peers
        = [selfInstallPeer s rh]) := by
  have hinst : installSelfIfEmpty s rh
      = setPeers s { peers := [selfInstallPeer s rh], agencySize := s.agencySize } := by
    unfold installSelfIfEmpty
    rw [if_pos (by simp [he])]
  refine ⟨rfl, rfl, ?_, ?_, ?_, ?_, ?_⟩
  · intro b
    simp [helloHandler, hs, hinst, setPeers]
  · intro msg
    simp [helloHandler, helloPost, hs, hinst, setPeers]
  · intro msg
    simp [helloHandler, helloPost, hs, hinst, setPeers]
  · intro req hid
    simp [helloHandler, helloPost, hs, hinst, hid, setPeers]
  · intro req hid hg
    rw [hinst] at hg
    simp only [setPeers, hs] at hg
    simp [helloHandler, helloPost, hs, hinst, hid, hg, setPeers,
      beq_eq_false_iff_ne.mpr hid]

theorem hello_self_install_on_error_witness :
    (baseService.isSlave = false) ∧ (baseService.myPeers.peers = []) ∧
    ((selfInstallPeer baseService "h0").portOffset = 0 ∧
     (selfInstallPeer baseService "h0").hasAgent = true ∧
     (∀ b : BodyResult HelloRequest,
       (helloHandler baseService "h0" "h0" "GET" b).service.myPeers.peers
         = [selfInstallPeer baseService "h0"]) ∧
     (∀ msg, (helloHandler baseService "h0" "h0" "POST" (BodyResult.readError msg)).service.myPeers.peers
       = [selfInstallPeer baseService "h0"]) ∧
     (∀ msg, (helloHandler baseService "h0" "h0" "POST" (BodyResult.parseError msg)).service.myPeers.peers
       = [selfInstallPeer baseService "h0"]) ∧
     (∀ req : HelloRequest, req.slaveID = "" →
       (helloHandler baseService "h0" "h0" "POST" (BodyResult.ok req)).service.myPeers.peers
         = [selfInstallPeer baseService "h0"]) ∧
     (∀ req : HelloRequest, req.slaveID ≠ "" →
       guardHit (installSelfIfEmpty baseService "h0") (slaveAddrOf req "h0") req.dataDir req.slaveID = true →
       (helloHandler baseService "h0" "h0" "POST" (BodyResult.ok req)).service.myPeers.peers
         = [selfInstallPeer baseService "h0"])) :=
  ⟨by decide, by decide,
   hello_self_install_on_error baseService "h0" "h0" (by decide) (by decide)⟩

/-! C10: address handling on the update path versus the append path. -/

/-- C10: when the id is already known, the hello handler overwrites the
stored address with the raw request `SlaveAddress` (so an empty
`SlaveAddress` stores the empty string); only when appending a new peer
is an empty `SlaveAddress` replaced by the address derived from the
request's remote address. -/
theorem hello_update_address_spec (s : Service) (rh rd : String) (req : HelloRequest)
    (hs : s.isSlave = false) (hid : req.slaveID ≠ "")
    (hg : guardHit (installSelfIfEmpty s rh) (slaveAddrOf req rd) req.dataDir req.slaveID = false) :
    ((peerByID req.slaveID (installSelfIfEmpty s rh).myPeers.peers).isSome = true →
      ∀ q ∈ (helloHandler s rh rd "POST" (BodyResult.ok req)).service.myPeers.peers,
        q.id = req.slaveID → q.address = req.slaveAddress) ∧
    (peerByID req.slaveID (installSelfIfEmpty s rh).myPeers.peers = none →
      ∃ q ∈ (helloHandler s rh rd "POST" (BodyResult.ok req)).service.myPeers.peers,
        q.id = req.slaveID ∧ q.address = slaveAddrOf req rd) ∧
    (req.slaveAddress = "" → slaveAddrOf req rd = rd) := by
  have hh : helloHandler s rh rd "POST" (BodyResult.ok req)
      = helloPost (installSelfIfEmpty s rh) rd (BodyResult.ok req) := by
    simp [helloHandler, hs]
  have hidb : (req.slaveID == "") = false := beq_eq_false_iff_ne.mpr hid
  refine ⟨?_, ?_, ?_⟩
  · intro hfound q hq hqid
    rcases hfind : peerByID req.slaveID (installSelfIfEmpty s rh).myPeers.peers with _ | p
    · rw [hfind] at hfound
      simp at hfound
    · rw [hh] at hq
      simp only [helloPost, hidb, Bool.false_eq_true, if_false, hg, hfind,
        setPeers] at hq
      rw [List.mem_map] at hq
      obtain ⟨p0, hp0, rfl⟩ := hq
      by_cases hpid : (p0.id == req.slaveID) = true
      · simp [hpid]
      · simp only [Bool.not_eq_true] at hpid
        simp only [hpid, Bool.false_eq_true, if_false] at hqid ⊢
        exact absurd (beq_iff_eq.mpr hqid) (by simp [hpid])
  · intro hfind
    rw [hh]
    simp only [helloPost, hidb, Bool.false_eq_true, if_false, hg, hfind,
      setPeers]
    refine ⟨newHelloPeer (installSelfIfEmpty s rh) rd req, ?_, rfl, rfl⟩
    simp
  · intro h
    simp [slaveAddrOf, h]

theorem hello_update_address_spec_witness :
    (twoPeerService.isSlave = false) ∧ (reqB2.slaveID ≠ "") ∧
    (guardHit (installSelfIfEmpty twoPeerService "hx") (slaveAddrOf reqB2 "hB2") reqB2.dataDir reqB2.slaveID = false) ∧
    (((peerByID reqB2.slaveID (installSelfIfEmpty twoPeerService "hx").myPeers.peers).isSome = true →
       ∀ q ∈ (helloHandler twoPeerService "hx" "hB2" "POST" (BodyResult.ok reqB2)).service.myPeers.peers,
         q.id = reqB2.slaveID → q.address = reqB2.slaveAddress) ∧
     (peerByID reqB2.slaveID (installSelfIfEmpty twoPeerService "hx").myPeers.peers = none →
       ∃ q ∈ (helloHandler twoPeerService "hx" "hB2" "POST" (BodyResult.ok reqB2)).service.myPeers.peers,
         q.id = reqB2.slaveID ∧ q.address = slaveAddrOf reqB2 "hB2") ∧
     (reqB2.slaveAddress = "" → slaveAddrOf reqB2 "hB2" = "hB2")) :=
  ⟨by decide, by decide, by decide,
   hello_update_address_spec twoPeerService "hx" "hB2" reqB2 (by decide) (by decide) (by decide)⟩

/-! C3: re-hello is idempotent on membership. -/

theorem helloPost_isSlave (s : Service) (rd : String) (b : BodyResult HelloRequest) :
    (helloPost s rd b).service.isSlave = s.isSlave := by
  unfold helloPost
  rcases b with msg | msg | req
  · rfl
  · rfl
  · dsimp only
    split
    · rfl
    · split
      · rfl
      · split <;> rfl

theorem helloPost_registry_mem (s : Service) (rd : String) (req : HelloRequest) (ps : Peers)
    (h : (helloPost s rd (BodyResult.ok req)).resp = HelloResp.registry ps) :
    req.slaveID ≠ "" ∧
    ∃ q ∈ (helloPost s rd (BodyResult.ok req)).service.myPeers.peers,
      q.id = req.slaveID := by
  by_cases hidb : (req.slaveID == "") = true
  · simp [helloPost, hidb] at h
  · simp only [Bool.not_eq_true] at hidb
    refine ⟨fun hc => by simp [hc] at hidb, ?_⟩
    by_cases hg : guardHit s (slaveAddrOf req rd) req.dataDir req.slaveID = true
    · simp [helloPost, hidb, hg] at h
    · simp only [Bool.not_eq_true] at hg
      rcases hfind : peerByID req.slaveID s.myPeers.peers with _ | p
      · simp only [helloPost, hidb, Bool.false_eq_true, if_false, hg, hfind,
          setPeers]
        exact ⟨newHelloPeer s rd req, by simp, rfl⟩
      · simp only [helloPost, hidb, Bool.false_eq_true, if_false, hg, hfind,
          setPeers]
        have hfind2 : List.find? (fun x => x.id == req.slaveID) s.myPeers.peers = some p := hfind
        have hpmem : p ∈ s.myPeers.peers := List.mem_of_find?_eq_some hfind2
        have hpid : (p.id == req.slaveID) = true :=
          List.find?_some (p := fun x : Peer => x.id == req.slaveID) hfind2
        refine ⟨_, List.mem_map_of_mem _ hpmem, ?_⟩
        simp only [hpid, if_true]
        exact beq_iff_eq.mp hpid

theorem hello_second_time (s' : Service) (rh2 rd2 : String) (req : HelloRequest)
    (hs : s'.isSlave = false) (hid : req.slaveID ≠ "")
    (hmem : ∃ q ∈ s'.myPeers.peers, q.id = req.slaveID) :
    (helloHandler s' rh2 rd2 "POST" (BodyResult.ok req)).service.myPeers.peers.length
      = s'.myPeers.peers.length ∧
    (helloHandler s' rh2 rd2 "POST" (BodyResult.ok req)).service.myPeers.peers.map Peer.portOffset
      = s'.myPeers.peers.map Peer.portOffset ∧
    (helloHandler s' rh2 rd2 "POST" (BodyResult.ok req)).appended = false := by
  obtain ⟨q, hq, hqid⟩ := hmem
  have hne : s'.myPeers.peers ≠ [] := by
    intro h
    rw [h] at hq
    exact (List.not_mem_nil q) hq
  have hh : helloHandler s' rh2 rd2 "POST" (BodyResult.ok req)
      = helloPost s' rd2 (BodyResult.ok req) := by
    simp [helloHandler, hs, installSelfIfEmpty_of_ne_nil s' rh2 hne]
  rw [hh]
  have hidb : (req.slaveID == "") = false := beq_eq_false_iff_ne.mpr hid
  have hfind : (peerByID req.slaveID s'.myPeers.peers).isSome = true := by
    have hb : (q.id == req.slaveID) = true := beq_iff_eq.mpr hqid
    show (List.find? (fun x => x.id == req.slaveID) s'.myPeers.peers).isSome = true
    exact List.find?_isSome.mpr ⟨q, hq, hb⟩
  obtain ⟨p, hp⟩ := Option.isSome_iff_exists.mp hfind
  by_cases hg : guardHit s' (slaveAddrOf req rd2) req.dataDir req.slaveID = true
  · simp [helloPost, hidb, hg]
  · simp only [Bool.not_eq_true] at hg
    simp only [helloPost, hidb, Bool.false_eq_true, if_false, hg, hp, setPeers]
    refine ⟨List.length_map _ _, ?_, trivial⟩
    rw [List.map_map]
    apply List.map_congr_left
    intro a _
    simp only [Function.comp_apply]
    split <;> rfl

/-- C3: processing a valid hello request twice is idempotent on
membership: after the leader accepted the request once, processing the
same request again leaves the registry size unchanged, every peer's
portOffset unchanged, and appends no new peer (the known entry is only
updated in place). -/
theorem hello_idempotent (s : Service) (rh rd rh2 rd2 : String) (req : HelloRequest)
    (hs : s.isSlave = false)
    (hok : ∃ ps, (helloHandler s rh rd "POST" (BodyResult.ok req)).resp
      = HelloResp.registry ps) :
    (helloHandler (helloHandler s rh rd "POST" (BodyResult.ok req)).service
        rh2 rd2 "POST" (BodyResult.ok req)).service.myPeers.peers.length
      = (helloHandler s rh rd "POST" (BodyResult.ok req)).service.myPeers.peers.length ∧
    (helloHandler (helloHandler s rh rd "POST" (BodyResult.ok req)).service
        rh2 rd2 "POST" (BodyResult.ok req)).service.myPeers.peers.map Peer.portOffset
      = (helloHandler s rh rd "POST" (BodyResult.ok req)).service.myPeers.peers.map Peer.portOffset ∧
    (helloHandler (helloHandler s rh rd "POST" (BodyResult.ok req)).service
        rh2 rd2 "POST" (BodyResult.ok req)).appended = false := by
  have hh1 : helloHandler s rh rd "POST" (BodyResult.ok req)
      = helloPost (installSelfIfEmpty s rh) rd (BodyResult.ok req) := by
    simp [helloHandler, hs]
  obtain ⟨ps, hps⟩ := hok
  rw [hh1] at hps
  obtain ⟨hid, hmem⟩ := helloPost_registry_mem _ _ _ _ hps
  have hslave1 : (helloPost (installSelfIfEmpty s rh) rd (BodyResult.ok req)).service.isSlave = false := by
    rw [helloPost_isSlave, installSelfIfEmpty_isSlave, hs]
  rw [hh1]
  exact hello_second_time _ rh2 rd2 req hslave1 hid hmem

theorem hello_idempotent_witness :
    (baseService.isSlave = false) ∧
    (∃ ps, (helloHandler baseService "h0" "hB" "POST" (BodyResult.ok reqB)).resp
      = HelloResp.registry ps) ∧
    ((helloHandler (helloHandler baseService "h0" "hB" "POST" (BodyResult.ok reqB)).service
        "h0" "hB" "POST" (BodyResult.ok reqB)).service.myPeers.peers.length
      = (helloHandler baseService "h0" "hB" "POST" (BodyResult.ok reqB)).service.myPeers.peers.length ∧
     (helloHandler (helloHandler baseService "h0" "hB" "POST" (BodyResult.ok reqB)).service
        "h0" "hB" "POST" (BodyResult.ok reqB)).service.myPeers.peers.map Peer.portOffset
      = (helloHandler baseService "h0" "hB" "POST" (BodyResult.ok reqB)).service.myPeers.peers.map Peer.portOffset ∧
     (helloHandler (helloHandler baseService "h0" "hB" "POST" (BodyResult.ok reqB)).service
        "h0" "hB" "POST" (BodyResult.ok reqB)).appended = false) :=
  ⟨by decide, ⟨Peers.mk [peerSelf0, peerB3] 1, by decide⟩,
   hello_idempotent baseService "h0" "hB" "h0" "hB" reqB (by decide)
     ⟨Peers.mk [peerSelf0, peerB3] 1, by decide⟩⟩

/-! C1: the agent-prefix invariant. -/

theorem agentInvNil (A : Int) : AgentInv [] A := by
  unfold AgentInv agentFlags agentPattern
  simp

theorem agentInvSingleton (p : Peer) (A : Int) (hp : p.hasAgent = true) (hA : 1 ≤ A) :
    AgentInv [p] A := by
  unfold AgentInv agentFlags agentPattern
  have hmin : min (1:Nat) A.toNat = 1 := by omega
  simp [hp, hmin]

theorem agentInvAppend (l : List Peer) (A : Int) (p : Peer)
    (hInv : AgentInv l A)
    (hp : p.hasAgent = decide ((l.length : Int) < A)) :
    AgentInv (l ++ [p]) A := by
  unfold AgentInv agentFlags agentPattern at hInv ⊢
  rw [List.map_append, hInv, List.map_singleton]
  have hlen : (l ++ [p]).length = l.length + 1 := by
    simp
  rw [hlen]
  rcases Nat.lt_or_ge l.length A.toNat with hna | hna
  · have e1 : min l.length A.toNat = l.length := by omega
    have e2 : min (l.length + 1) A.toNat = l.length + 1 := by omega
    have e3 : p.hasAgent = true := by
      rw [hp]
      simp only [decide_eq_true_eq]
      omega
    rw [e1, e2, e3, Nat.sub_self, Nat.sub_self]
    simp only [List.replicate_zero, List.append_nil]
    try exact (List.replicate_succ' l.length true).symm
  · have e1 : min l.length A.toNat = A.toNat := by omega
    have e2 : min (l.length + 1) A.toNat = A.toNat := by omega
    have e3 : p.hasAgent = false := by
      rw [hp]
      simp only [decide_eq_false_iff_not]
      omega
    have e4 : l.length + 1 - A.toNat = (l.length - A.toNat) + 1 := by omega
    rw [e1, e2, e3, e4, List.append_assoc,
      List.replicate_succ' (l.length - A.toNat) false]

theorem agentInvMapPreserve (l : List Peer) (A : Int) (f : Peer → Peer)
    (hf : ∀ p, (f p).hasAgent = p.hasAgent) (hInv : AgentInv l A) :
    AgentInv (l.map f) A := by
  unfold AgentInv agentFlags at hInv ⊢
  rw [List.length_map, List.map_map]
  have hc : Peer.hasAgent ∘ f = Peer.hasAgent := funext hf
  rw [hc]
  exact hInv

theorem erase_false_from_flags (xs : List Bool) : ∀ (k m : Nat) (ys : List Bool),
    xs ++ false :: ys = List.replicate k true ++ List.replicate m false →
    1 ≤ m ∧ xs ++ ys = List.replicate k true ++ List.replicate (m - 1) false := by
  induction xs with
  | nil =>
      intro k m ys h
      simp only [List.nil_append] at h ⊢
      cases k with
      | zero =>
          simp only [List.replicate_zero, List.nil_append] at h ⊢
          cases m with
          | zero => simp at h
          | succ m' =>
              rw [List.replicate_succ] at h
              injection h with h1 h2
              exact ⟨by omega, by simpa using h2⟩
      | succ k' =>
          rw [List.replicate_succ, List.cons_append] at h
          injection h with h1 h2
          exact absurd h1 (by simp)
  | cons x xs ih =>
      intro k m ys h
      rw [List.cons_append] at h
      cases k with
      | zero =>
          simp only [List.replicate_zero, List.nil_append] at h ⊢
          cases m with
          | zero => simp at h
          | succ m' =>
              rw [List.replicate_succ] at h
              injection h with h1 h2
              obtain ⟨hm, he⟩ := ih 0 m' ys (by simpa using h2)
              subst h1
              refine ⟨by omega, ?_⟩
              simp only [List.replicate_zero, List.nil_append] at he
              rw [List.cons_append, he]
              rw [show m' + 1 - 1 = (m' - 1) + 1 from by omega, List.replicate_succ]
      | succ k' =>
          rw [List.replicate_succ, List.cons_append] at h
          injection h with h1 h2
          obtain ⟨hm, he⟩ := ih k' m ys h2
          subst h1
          refine ⟨hm, ?_⟩
          rw [List.cons_append, he, List.replicate_succ, List.cons_append]

theorem agentInvErase (l : List Peer) (A : Int) (i : String)
    (hInv : AgentInv l A)
    (hsafe : ∀ p ∈ l, p.id = i → p.hasAgent = false) :
    AgentInv (l.eraseP (fun p => p.id == i)) A := by
  by_cases hex : ∃ p ∈ l, p.id = i
  · obtain ⟨p0, hp0mem, hp0id⟩ := hex
    have hp0b : (p0.id == i) = true := beq_iff_eq.mpr hp0id
    obtain ⟨c, l₁, l₂, hnot, hpc, hdecomp, herase⟩ :=
      List.exists_of_eraseP (p := fun p : Peer => p.id == i) hp0mem hp0b
    have hcfalse : c.hasAgent = false := by
      apply hsafe c
      · rw [hdecomp]
        exact List.mem_append.mpr (Or.inr (List.mem_cons_self c l₂))
      · exact beq_iff_eq.mp hpc
    unfold AgentInv agentFlags agentPattern at hInv ⊢
    rw [herase]
    rw [hdecomp] at hInv
    rw [List.map_append, List.map_cons, hcfalse] at hInv
    obtain ⟨hm1, he⟩ := erase_false_from_flags (l₁.map Peer.hasAgent)
      (min (l₁ ++ c :: l₂).length A.toNat)
      ((l₁ ++ c :: l₂).length - min (l₁ ++ c :: l₂).length A.toNat)
      (l₂.map Peer.hasAgent) hInv
    rw [List.map_append, he]
    have hl : (l₁ ++ c :: l₂).length = l₁.length + l₂.length + 1 := by
      simp only [List.length_append, List.length_cons]
      omega
    have hl2 : (l₁ ++ l₂).length = l₁.length + l₂.length := by
      simp only [List.length_append]
    rw [hl] at hm1
    have hk : min (l₁ ++ l₂).length A.toNat = min (l₁ ++ c :: l₂).length A.toNat := by
      rw [hl, hl2]
      omega
    have hm2 : (l₁ ++ l₂).length - min (l₁ ++ l₂).length A.toNat
        = (l₁ ++ c :: l₂).length - min (l₁ ++ c :: l₂).length A.toNat - 1 := by
      rw [hl, hl2]
      omega
    rw [hm2, hk]
  · rw [List.eraseP_of_forall_not (fun p hp hb => hex ⟨p, hp, beq_iff_eq.mp hb⟩)]
    exact hInv

theorem installSelfIfEmpty_inv (s : Service) (rh : String) (hA : 1 ≤ s.agencySize)
    (hInv : AgentInv s.myPeers.peers s.agencySize) :
    AgentInv (installSelfIfEmpty s rh).myPeers.peers s.agencySize := by
  unfold installSelfIfEmpty
  split
  · exact agentInvSingleton _ _ rfl hA
  · exact hInv

theorem helloPost_inv (s : Service) (rd : String) (b : BodyResult HelloRequest)
    (hInv : AgentInv s.myPeers.peers s.agencySize) :
    AgentInv (helloPost s rd b).service.myPeers.peers s.agencySize := by
  unfold helloPost
  rcases b with msg | msg | req
  · exact hInv
  · exact hInv
  · dsimp only
    split
    · exact hInv
    · split
      · exact hInv
      · split
        · exact agentInvMapPreserve _ _ _
            (fun p => by by_cases h : (p.id == req.slaveID) = true <;> simp [h]) hInv
        · exact agentInvAppend _ _ _ hInv rfl

theorem helloHandler_inv (s : Service) (rh rd m : String) (b : BodyResult HelloRequest)
    (hA : 1 ≤ s.agencySize) (hInv : AgentInv s.myPeers.peers s.agencySize) :
    AgentInv (helloHandler s rh rd m b).service.myPeers.peers s.agencySize := by
  unfold helloHandler
  split
  · split
    · exact hInv
    · exact hInv
  · dsimp only
    split
    · have h2 := helloPost_inv (installSelfIfEmpty s rh) rd b
        (by rw [installSelfIfEmpty_agencySize]
            exact installSelfIfEmpty_inv s rh hA hInv)
      rwa [installSelfIfEmpty_agencySize] at h2
    · exact installSelfIfEmpty_inv s rh hA hInv

theorem goodbyeHandler_inv (s : Service) (m : String) (b : BodyResult GoodbyeRequest)
    (hInv : AgentInv s.myPeers.peers s.agencySize)
    (hsafe : ∀ req, b = BodyResult.ok req →
      ∀ p ∈ s.myPeers.peers, p.id = req.slaveID → p.hasAgent = false) :
    AgentInv (goodbyeHandler s m b).service.myPeers.peers s.agencySize := by
  unfold goodbyeHandler
  split
  · exact hInv
  · rcases b with msg | msg | req
    · exact hInv
    · exact hInv
    · dsimp only
      split
      · exact hInv
      · split
        · exact hInv
        · rename_i newPeers heq
          unfold removePeerByID at heq
          split at heq
          · injection heq with heq2
            subst heq2
            exact agentInvErase s.myPeers.peers s.agencySize req.slaveID hInv
              (hsafe req rfl)
          · exact absurd heq (by simp)

theorem agentInvCount (l : List Peer) (A : Int) (h : AgentInv l A) :
    (agentFlags l).count true = min l.length A.toNat := by
  unfold AgentInv agentPattern at h
  rw [h, List.count_append, List.count_replicate_self, List.count_replicate]
  simp

/-- C1 (amended): in every state reachable by hello operations and by
goodbye operations that only remove peers without an agent, exactly
`min (len(peers), agencySize)` peers have `hasAgent = true` and they
occupy the first that many positions in join order (a goodbye for an
agent-bearing peer breaks the invariant, see the counterexample). -/
theorem agent_invariant_reachable (s0 s : Service)
    (h0 : s0.myPeers.peers = []) (hA : 1 ≤ s0.agencySize)
    (hR : ReachSafe s0 s) :
    AgentInv s.myPeers.peers s.agencySize ∧
    (agentFlags s.myPeers.peers).count true
      = min s.myPeers.peers.length s.agencySize.toNat := by
  have key : s.agencySize = s0.agencySize ∧ AgentInv s.myPeers.peers s.agencySize := by
    induction hR with
    | refl =>
        refine ⟨rfl, ?_⟩
        rw [h0]
        exact agentInvNil _
    | hello st rh rd m b hRprev ih =>
        obtain ⟨hag, hinv⟩ := ih
        refine ⟨by rw [helloHandler_agencySize, hag], ?_⟩
        rw [helloHandler_agencySize]
        exact helloHandler_inv st rh rd m b (by omega) hinv
    | goodbye st m b hRprev hsafe ih =>
        obtain ⟨hag, hinv⟩ := ih
        refine ⟨by rw [goodbyeHandler_agencySize, hag], ?_⟩
        rw [goodbyeHandler_agencySize]
        exact goodbyeHandler_inv st m b hinv hsafe
  exact ⟨key.2, agentInvCount _ _ key.2⟩

/-- C1 counterexample: from a fresh leader with agency size 1, a hello
from `B` followed by a goodbye of the (agent-bearing) self peer reaches a
registry with one peer and no agent, although `min (1, 1) = 1` agents are
required: the invariant does not survive goodbyes of agent-bearing
peers. -/
theorem agent_invariant_counterexample :
    Reach baseService serviceAfterGoodbyeSelf ∧
    ¬ AgentInv serviceAfterGoodbyeSelf.myPeers.peers serviceAfterGoodbyeSelf.agencySize := by
  constructor
  · exact Reach.goodbye serviceAfterB "POST" (BodyResult.ok { slaveID := "self" })
      (Reach.hello baseService "h0" "hB" "POST" (BodyResult.ok reqB) Reach.refl)
  · decide

theorem agent_invariant_reachable_witness :
    (baseService.myPeers.peers = []) ∧ (1 ≤ baseService.agencySize) ∧
    (AgentInv serviceAfterB.myPeers.peers serviceAfterB.agencySize ∧
     (agentFlags serviceAfterB.myPeers.peers).count true
       = min serviceAfterB.myPeers.peers.length serviceAfterB.agencySize.toNat) :=
  ⟨by decide, by decide,
   agent_invariant_reachable baseService serviceAfterB (by decide) (by decide)
     (ReachSafe.hello baseService "h0" "hB" "POST" (BodyResult.ok reqB) ReachSafe.refl)⟩

theorem hello_follower_spec_witness :
    (slaveService.isSlave = true) ∧
    ((helloHandler slaveService "hx" "rx" "GET" (BodyResult.readError "")).service = slaveService ∧
     (∀ master rest, slaveService.myPeers.peers = master :: rest →
       (helloHandler slaveService "hx" "rx" "GET" (BodyResult.readError "")).resp
         = HelloResp.redirect
             ("http://" ++ master.address ++ ":" ++ toString master.port ++ "/hello") ∧
       helloStatus (helloHandler slaveService "hx" "rx" "GET" (BodyResult.readError "")).resp = 307) ∧
     (slaveService.myPeers.peers = [] →
       (helloHandler slaveService "hx" "rx" "GET" (BodyResult.readError "")).resp
         = HelloResp.err 400 "No master known." ∧
       helloStatus (helloHandler slaveService "hx" "rx" "GET" (BodyResult.readError "")).resp = 400)) :=
  ⟨by decide, hello_follower_spec slaveService "hx" "rx" "GET" (BodyResult.readError "") (by decide)⟩
